import Mathlib

/-!
Verification of the device-session / command-result test framework
(`adb_test.py`, `neo_test.py`) against its specification.

The Python source is shallowly embedded: `CommandResult` and its
`assert_*` methods become pure Lean functions returning `Except`;
session methods become explicit state-and-trace passing functions
(`M`), with the external device modelled as a pure transport oracle
mapping an argv to a completed-process record.
-/

set_option maxRecDepth 4000

/-- Python exception kinds relevant to this code base.  `adbAssertion`
models `ADBAssertionError`, `initialization` models
`InitializationError`; `valueError`, `keyError`, `typeError` and
`indexError` model the corresponding Python builtins. -/
inductive PyError where
  | adbAssertion (msg : String)
  | initialization (msg : String)
  | valueError (msg : String)
  | keyError (msg : String)
  | typeError (msg : String)
  | indexError (msg : String)
deriving DecidableEq, Repr

/-- The fields of `subprocess.CompletedProcess` the framework reads. -/
structure CompletedProc where
  returncode : Int
  stdout : String
  stderr : String
deriving DecidableEq, Repr

/-- Python `str.strip()` whitespace set (ASCII part). -/
def pyIsSpace (c : Char) : Bool :=
  c = ' ' || c = '\t' || c = '\n' || c = '\x0d' || c = '\x0b' || c = '\x0c'

/-- Python `str.strip()`: drop leading and trailing whitespace. -/
def pyStrip (s : String) : String :=
  String.mk (((s.toList.dropWhile pyIsSpace).reverse.dropWhile pyIsSpace).reverse)

/-- Helper for `pySplitlines`: accumulator holds the current line reversed. -/
def pySplitlinesAux : List Char → List Char → List String
  | [], acc => if acc.isEmpty then [] else [String.mk acc.reverse]
  | '\n' :: rest, acc => String.mk acc.reverse :: pySplitlinesAux rest []
  | '\x0d' :: '\n' :: rest, acc => String.mk acc.reverse :: pySplitlinesAux rest []
  | '\x0d' :: rest, acc => String.mk acc.reverse :: pySplitlinesAux rest []
  | c :: rest, acc => pySplitlinesAux rest (c :: acc)

/-- Python `str.splitlines()` restricted to the line boundaries that can
occur in this framework's captured text output (`\n`, `\r\n`, `\r`). -/
def pySplitlines (s : String) : List String :=
  pySplitlinesAux s.toList []

/-- Digit run of a Python base-10 integer literal: digits with single
underscores allowed between digits. -/
def pyIntGo : Nat → List Char → Option Nat
  | acc, [] => some acc
  | acc, '_' :: d :: rest =>
      if d.isDigit then pyIntGo (acc * 10 + (d.toNat - 48)) rest else none
  | _, ['_'] => none
  | acc, d :: rest =>
      if d.isDigit then pyIntGo (acc * 10 + (d.toNat - 48)) rest else none

/-- Unsigned part of Python `int(str)`: first char must be a digit. -/
def pyIntCore : List Char → Option Nat
  | [] => none
  | c :: rest => if c.isDigit then pyIntGo (c.toNat - 48) rest else none

/-- Python built-in `int(s)` for base 10: strips whitespace, optional
sign, digits (with underscores between digits); `none` models the
`ValueError` raised on anything else. -/
def pyInt (s : String) : Option Int :=
  let cs := (s.toList.dropWhile pyIsSpace).reverse.dropWhile pyIsSpace |>.reverse
  match cs with
  | '+' :: rest => (pyIntCore rest).map Int.ofNat
  | '-' :: rest => (pyIntCore rest).map (fun n => -(Int.ofNat n))
  | _ => (pyIntCore cs).map Int.ofNat

/-- `CommandResult` from `adb_test.py`: wrapper around one executed
command's argv and completed-process record. -/
structure CommandResult where
  command : List String
  completed_proc : CompletedProc
deriving DecidableEq, Repr

namespace CommandResult

/-- `CommandResult.succeeded`: true iff the exit code is 0. -/
def succeeded (r : CommandResult) : Bool :=
  r.completed_proc.returncode = 0

/-- `CommandResult.command_str`: argv joined with spaces. -/
def command_str (r : CommandResult) : String :=
  String.intercalate " " r.command

/-- `CommandResult.failure_message`. -/
def failure_message (r : CommandResult) : String :=
  if r.succeeded then "SUCCEEDED: " ++ r.command_str
  else
    "FAILED (" ++ toString r.completed_proc.returncode ++ "): " ++ r.command_str ++ "\n"
      ++ "STDERR=" ++ r.completed_proc.stderr ++ "STDOUT=" ++ r.completed_proc.stdout

/-- `CommandResult.assert_succeeded`: raise `ADBAssertionError` unless
the exit code is 0. -/
def assert_succeeded (r : CommandResult) : Except PyError Unit :=
  if r.succeeded then .ok () else .error (.adbAssertion r.failure_message)

/-- Message of the single-string assertion failure. -/
def single_string_msg (r : CommandResult) : String :=
  "FAILED: \x27" ++ r.command_str
    ++ "\x27 stdout was supposed to be a single string, but wasn\x27t.\nSTDOUT was:\n"
    ++ r.completed_proc.stdout

/-- `CommandResult.assert_string`: requires success and stdout that is a
single non-empty line; returns the stripped value (a raised exception
propagates, modelled by the explicit error match). -/
def assert_string (r : CommandResult) : Except PyError String :=
  match r.assert_succeeded with
  | .error e => .error e
  | .ok _ =>
      if (pyStrip r.completed_proc.stdout).length = 0
          || (pySplitlines r.completed_proc.stdout).length > 1 then
        .error (.adbAssertion (r.single_string_msg))
      else
        .ok (pyStrip r.completed_proc.stdout)

/-- Message of the integer-parse assertion failure. -/
def integer_msg (r : CommandResult) : String :=
  "FAILED: \x27" ++ r.command_str
    ++ "\x27 stdout was supposed to be an integer, but wasn\x27t.\nSTDOUT was:\n"
    ++ r.completed_proc.stdout

/-- `CommandResult.assert_int`: `int(self.assert_string())`, converting
the `ValueError` of a failed parse into an `ADBAssertionError`; a
failure of `assert_string` itself propagates unchanged. -/
def assert_int (r : CommandResult) : Except PyError Int :=
  match r.assert_string with
  | .error e => .error e
  | .ok s =>
      match pyInt s with
      | some n => .ok n
      | none => .error (.adbAssertion (r.integer_msg))

end CommandResult

/-- JSON values as produced by Python `json.loads` for the payloads this
framework exchanges (numeric values are integral in all of them). -/
inductive Json where
  | null
  | bool (b : Bool)
  | int (n : Int)
  | str (s : String)
  | arr (l : List Json)
  | obj (l : List (String × Json))

/-- Python equality test of a decoded JSON value against a string
literal: true iff the value is that string (any non-string value
compares unequal to a `str`). -/
def Json.eqStr (j : Json) (s : String) : Bool :=
  match j with
  | .str t => t = s
  | _ => false

def lbrace : Char := Char.ofNat 123
def rbrace : Char := Char.ofNat 125

/-- JSON whitespace. -/
def jsonWs (c : Char) : Bool :=
  c = ' ' || c = '\t' || c = '\n' || c = '\x0d'

def skipWs (cs : List Char) : List Char :=
  cs.dropWhile jsonWs

/-- Parse the body of a JSON string literal (after the opening quote).
Supports the escape forms used by this framework's payloads. -/
def parseJsonString : List Char → Option (String × List Char)
  | cs => go cs []
where
  go : List Char → List Char → Option (String × List Char)
    | [], _ => none
    | '"' :: rest, acc => some (String.mk acc.reverse, rest)
    | '\\' :: e :: rest, acc =>
        if e = '"' then go rest ('"' :: acc)
        else if e = '\\' then go rest ('\\' :: acc)
        else if e = '/' then go rest ('/' :: acc)
        else if e = 'n' then go rest ('\n' :: acc)
        else if e = 't' then go rest ('\t' :: acc)
        else if e = 'r' then go rest ('\x0d' :: acc)
        else none
    | c :: rest, acc => go rest (c :: acc)

/-- Parse an integral JSON number (optional minus, digit run). -/
def parseJsonInt : List Char → Option (Int × List Char)
  | '-' :: rest =>
      match rest.span Char.isDigit with
      | ([], _) => none
      | (ds, rest2) => some (-(Int.ofNat (digitsToNat ds)), rest2)
  | cs =>
      match cs.span Char.isDigit with
      | ([], _) => none
      | (ds, rest2) => some (Int.ofNat (digitsToNat ds), rest2)
where
  digitsToNat (ds : List Char) : Nat :=
    ds.foldl (fun a c => a * 10 + (c.toNat - 48)) 0

/-- Insert a key into an object, with a later duplicate key overwriting
an earlier one (Python dict semantics of `json.loads`). -/
def jsonInsert (l : List (String × Json)) (k : String) (v : Json) : List (String × Json) :=
  if l.any (fun p => p.1 = k) then
    l.map (fun p => if p.1 = k then (k, v) else p)
  else l ++ [(k, v)]

mutual

/-- One JSON value, fuelled recursive descent. -/
def parseJsonValue : Nat → List Char → Except String (Json × List Char)
  | 0, _ => .error "Expecting value"
  | _ + 1, [] => .error "Expecting value"
  | fuel + 1, c :: cs =>
      if c = '"' then
        match parseJsonString cs with
        | some (s, rest) => .ok (.str s, rest)
        | none => .error "Unterminated string starting at"
      else if c = lbrace then parseJsonObj fuel (skipWs cs) []
      else if c = '[' then parseJsonArr fuel (skipWs cs) []
      else if c = 't' then
        match cs with
        | 'r' :: 'u' :: 'e' :: rest => .ok (.bool true, rest)
        | _ => .error "Expecting value"
      else if c = 'f' then
        match cs with
        | 'a' :: 'l' :: 's' :: 'e' :: rest => .ok (.bool false, rest)
        | _ => .error "Expecting value"
      else if c = 'n' then
        match cs with
        | 'u' :: 'l' :: 'l' :: rest => .ok (.null, rest)
        | _ => .error "Expecting value"
      else if c.isDigit || c = '-' then
        match parseJsonInt (c :: cs) with
        | some (n, rest) => .ok (.int n, rest)
        | none => .error "Expecting value"
      else .error "Expecting value"

/-- Object members, after the opening brace (leading whitespace skipped). -/
def parseJsonObj : Nat → List Char → List (String × Json) →
    Except String (Json × List Char)
  | 0, _, _ => .error "Expecting value"
  | _ + 1, [], _ => .error "Expecting property name enclosed in double quotes"
  | fuel + 1, c :: cs, acc =>
      if c = rbrace && acc.isEmpty then .ok (.obj [], cs)
      else if c = '"' then
        match parseJsonString cs with
        | none => .error "Unterminated string starting at"
        | some (k, rest) =>
            match skipWs rest with
            | ':' :: rest2 => do
                let (v, rest3) ← parseJsonValue fuel (skipWs rest2)
                let acc2 := jsonInsert acc k v
                match skipWs rest3 with
                | ',' :: rest4 =>
                    match skipWs rest4 with
                    | [] => .error "Expecting property name enclosed in double quotes"
                    | more => parseJsonObj fuel more acc2
                | d :: rest4 =>
                    if d = rbrace then .ok (.obj acc2, rest4)
                    else .error "Expecting \x27,\x27 delimiter"
                | [] => .error "Expecting \x27,\x27 delimiter"
            | _ => .error "Expecting \x27:\x27 delimiter"
      else .error "Expecting property name enclosed in double quotes"

/-- Array elements, after the opening bracket (leading whitespace skipped). -/
def parseJsonArr : Nat → List Char → List Json → Except String (Json × List Char)
  | 0, _, _ => .error "Expecting value"
  | _ + 1, [], _ => .error "Expecting value"
  | fuel + 1, c :: cs, acc =>
      if c = ']' && acc.isEmpty then .ok (.arr [], cs)
      else do
        let (v, rest) ← parseJsonValue fuel (c :: cs)
        match skipWs rest with
        | ',' :: rest2 => parseJsonArr fuel (skipWs rest2) (acc ++ [v])
        | ']' :: rest2 => .ok (.arr (acc ++ [v]), rest2)
        | _ => .error "Expecting \x27,\x27 delimiter"

end

/-- Python `json.loads`, modelling the standard-library collaborator for
the JSON subset this framework exchanges; the error string models
`JSONDecodeError.msg`. -/
def json_loads (s : String) : Except String Json := do
  let cs := skipWs s.toList
  let (v, rest) ← parseJsonValue (cs.length + 1) cs
  match skipWs rest with
  | [] => .ok v
  | _ => .error "Extra data"

/-- Python `d[k]` on a decoded JSON value: `KeyError` on a missing
object key, `TypeError` when the value is not an object. -/
def jsonGetItem (j : Json) (k : String) : Except PyError Json :=
  match j with
  | .obj l =>
      match l.lookup k with
      | some v => .ok v
      | none => .error (.keyError k)
  | _ => .error (.typeError "value is not subscriptable by string")

namespace CommandResult

/-- Message of the malformed-JSON assertion failure, ending in the
decoder's own message `m`. -/
def json_decode_msg (r : CommandResult) (m : String) : String :=
  "FAILED: \x27" ++ r.command_str
    ++ "\x27 stdout was supposed to contain valid json, but didn\x27t.\nSTDOUT was:\n"
    ++ r.completed_proc.stdout ++ ".  Decoding error was: " ++ m

/-- `CommandResult.assert_json`: parse stdout as JSON (caching it on the
result, modelled by returning the parsed value); on a decode error raise
`ADBAssertionError` including the parser's message.  NOTE: the source
does not call `assert_succeeded` first. -/
def assert_json (r : CommandResult) : Except PyError Json :=
  match json_loads r.completed_proc.stdout with
  | .ok j => .ok j
  | .error m => .error (.adbAssertion (r.json_decode_msg m))

/-- Message of the manufacturing-status assertion failure, naming the
literal JSON text from stdout. -/
def mfg_fail_msg (r : CommandResult) : String :=
  "FAILED: \x27" ++ r.command_str ++ "\x27 didn\x27t report \x27Success\x27, JSON:\n"
    ++ r.completed_proc.stdout

/-- `NeoCommandResult.assert_mfg_succeeded` (from `neo_test.py`):
require success, require valid JSON, require `json_data[\x27status\x27]`
to equal `"Success"`. -/
def assert_mfg_succeeded (r : CommandResult) : Except PyError Unit :=
  match r.assert_succeeded with
  | .error e => .error e
  | .ok _ =>
      match r.assert_json with
      | .error e => .error e
      | .ok j =>
          match jsonGetItem j "status" with
          | .error e => .error e
          | .ok v =>
              if v.eqStr "Success" = false then
                .error (.adbAssertion (r.mfg_fail_msg))
              else
                .ok ()

end CommandResult

/-- Regular-expression ASTs for the patterns this framework passes to
`re.search(pattern, text, re.MULTILINE)`.  `dot` is `.` (any char but
newline), `wordc` is `\w`, `spacec` is `\s`, `star` is greedy `*`,
`group i` is the i-th capturing group, `bol` is `^` under MULTILINE. -/
inductive Re where
  | eps
  | ch (c : Char)
  | dot
  | wordc
  | spacec
  | seq (a b : Re)
  | alt (a b : Re)
  | star (a : Re)
  | group (i : Nat) (a : Re)
  | bol
deriving DecidableEq, Repr

/-- Literal string as a regex (no metacharacters). -/
def Re.lit (s : String) : Re :=
  s.toList.foldr (fun c r => Re.seq (Re.ch c) r) Re.eps

/-- Greedy `+`: one occurrence then a greedy star. -/
def Re.plus (a : Re) : Re := Re.seq a (Re.star a)

/-- Number of capturing groups in the pattern (`re` rejects `group(i)`
for `i` beyond this). -/
def Re.maxGroup : Re → Nat
  | .seq a b => max a.maxGroup b.maxGroup
  | .alt a b => max a.maxGroup b.maxGroup
  | .star a => a.maxGroup
  | .group i a => max i a.maxGroup
  | _ => 0

/-- `\w` for the ASCII text this framework matches. -/
def isWordChar (c : Char) : Bool :=
  c.isAlphanum || c = '_'

/-- Substring of the input between two positions, as captured text. -/
def capture (inp : List Char) (startPos endPos : Nat) : String :=
  String.mk ((inp.drop startPos).take (endPos - startPos))

/-- Greedy-star driver: given the matcher of the body (as candidate end
position / group lists in preference order), produce the star's
candidates, longest expansions first, requiring progress per iteration
(which is how a backtracking engine terminates); fuel bounds the
iteration count by the remaining input length. -/
def mtchStar (body : Nat → List (Nat × String) → List (Nat × List (Nat × String))) :
    Nat → Nat → List (Nat × String) → List (Nat × List (Nat × String))
  | 0, pos, g => [(pos, g)]
  | fuel + 1, pos, g =>
      (((body pos g).filter (fun pr => pos < pr.1)).flatMap
        (fun pr => mtchStar body fuel pr.1 pr.2))
      ++ [(pos, g)]

/-- Backtracking matcher: all candidate (end position, captured groups)
pairs of the pattern at the given position, in the preference order of a
Python-style leftmost/greedy engine (first element is the match the
engine reports). -/
def mtch (inp : List Char) : Re → Nat → List (Nat × String) → List (Nat × List (Nat × String))
  | .eps, pos, g => [(pos, g)]
  | .ch c, pos, g =>
      match inp.get? pos with
      | some d => if d = c then [(pos + 1, g)] else []
      | none => []
  | .dot, pos, g =>
      match inp.get? pos with
      | some d => if d = '\n' then [] else [(pos + 1, g)]
      | none => []
  | .wordc, pos, g =>
      match inp.get? pos with
      | some d => if isWordChar d then [(pos + 1, g)] else []
      | none => []
  | .spacec, pos, g =>
      match inp.get? pos with
      | some d => if pyIsSpace d then [(pos + 1, g)] else []
      | none => []
  | .seq a b, pos, g =>
      (mtch inp a pos g).flatMap (fun pr => mtch inp b pr.1 pr.2)
  | .alt a b, pos, g => mtch inp a pos g ++ mtch inp b pos g
  | .star a, pos, g =>
      mtchStar (fun p g2 => mtch inp a p g2) (inp.length + 1 - pos) pos g
  | .group i a, pos, g =>
      (mtch inp a pos g).map (fun pr => (pr.1, (i, capture inp pos pr.1) :: pr.2))
  | .bol, pos, g =>
      if pos = 0 || inp.get? (pos - 1) = some '\n' then [(pos, g)] else []

/-- A reported regex match: start, end, and captured groups (most recent
assignment first; a group absent from the list did not participate). -/
structure RMatch where
  startPos : Nat
  endPos : Nat
  groups : List (Nat × String)
deriving DecidableEq, Repr

/-- `re.search(p, s, re.MULTILINE)`: try each start position left to
right; at the first position with a match, report the engine's
preferred candidate. -/
def reSearch (p : Re) (s : String) : Option RMatch :=
  let inp := s.toList
  (List.range (inp.length + 1)).findSome?
    (fun st => (mtch inp p st []).head?.map (fun pr => ⟨st, pr.1, pr.2⟩))

/-- Python `str(x)` on `group(1)`: the captured string, or the text
`"None"` when the group did not participate in the match. -/
def pyStrOfGroup (o : Option String) : String :=
  match o with
  | some s => s
  | none => "None"

namespace CommandResult

/-- `CommandResult.contains`: true iff the regex matches stdout. -/
def contains (r : CommandResult) (p : Re) : Bool :=
  (reSearch p r.completed_proc.stdout).isSome

/-- `CommandResult.stderr_contains`: true iff the regex matches stderr. -/
def stderr_contains (r : CommandResult) (p : Re) : Bool :=
  (reSearch p r.completed_proc.stderr).isSome

/-- Message of the regex-match assertion failures (the pattern text
itself, being an AST here, is elided from the message). -/
def no_match_msg (r : CommandResult) : String :=
  "FAILED: \x27" ++ r.command_str
    ++ "\x27 stdout was supposed to match regex, but didn\x27t.\nSTDOUT was:\n"
    ++ r.completed_proc.stdout

/-- `CommandResult.assert_contains`. -/
def assert_contains (r : CommandResult) (p : Re) : Except PyError Unit :=
  if r.contains p then .ok ()
  else .error (.adbAssertion (r.no_match_msg))

/-- `CommandResult.search`: `None if re_result is None else
str(re_result.group(1))`; `group(1)` raises `IndexError` when the
pattern has no capturing group. -/
def search (r : CommandResult) (p : Re) : Except PyError (Option String) :=
  match reSearch p r.completed_proc.stdout with
  | none => .ok none
  | some m =>
      if p.maxGroup < 1 then .error (.indexError "no such group")
      else .ok (some (pyStrOfGroup (m.groups.lookup 1)))

/-- `CommandResult.stderr_search`: same against stderr. -/
def stderr_search (r : CommandResult) (p : Re) : Except PyError (Option String) :=
  match reSearch p r.completed_proc.stderr with
  | none => .ok none
  | some m =>
      if p.maxGroup < 1 then .error (.indexError "no such group")
      else .ok (some (pyStrOfGroup (m.groups.lookup 1)))

/-- `CommandResult.assert_search`: require a match, return the group
(an exception from `search` itself propagates). -/
def assert_search (r : CommandResult) (p : Re) : Except PyError String :=
  match r.search p with
  | .error e => .error e
  | .ok none => .error (.adbAssertion (r.no_match_msg))
  | .ok (some s) => .ok s

end CommandResult


/-- `DeviceType` enum from `neo_test.py`. -/
inductive DeviceType where
  | HAMMERHEAD
  | GREATWHITE
deriving DecidableEq, Repr

/-- Enum member values of `DeviceType`. -/
def DeviceType.value : DeviceType → String
  | .HAMMERHEAD => "hammerhead"
  | .GREATWHITE => "greatwhite"

/-- Python `DeviceType(v)` value lookup: an unmapped value raises
`ValueError` (not `KeyError`). -/
def DeviceType.fromValue (v : String) : Except PyError DeviceType :=
  if v = "hammerhead" then .ok .HAMMERHEAD
  else if v = "greatwhite" then .ok .GREATWHITE
  else .error (.valueError ("\x27" ++ v ++ "\x27 is not a valid DeviceType"))

/-- `BoardType` enum from `neo_test.py`: the closed board-revision table. -/
inductive BoardType where
  | SN_UNKNOWN
  | HN_UNKNOWN
  | SN_DEV0
  | SN_P1
  | SN_DEV0_1
  | SN_RESERVED
  | SN_EVT1
  | SN_EVT1_1
  | HN_CONFIG_DEV0
  | HN_CONFIG_DEV0_1
  | HN_PREP1
deriving DecidableEq, Repr

/-- Enum member values of `BoardType`. -/
def BoardType.value : BoardType → Int
  | .SN_UNKNOWN => 0
  | .HN_UNKNOWN => 1
  | .SN_DEV0 => 160
  | .SN_P1 => 161
  | .SN_DEV0_1 => 162
  | .SN_RESERVED => 163
  | .SN_EVT1 => 164
  | .SN_EVT1_1 => 165
  | .HN_CONFIG_DEV0 => 176
  | .HN_CONFIG_DEV0_1 => 177
  | .HN_PREP1 => 178

/-- Python `BoardType(v)` value lookup: an unmapped numeric value raises
`ValueError` (not `KeyError`). -/
def BoardType.fromValue (v : Int) : Except PyError BoardType :=
  if v = 0 then .ok .SN_UNKNOWN
  else if v = 1 then .ok .HN_UNKNOWN
  else if v = 160 then .ok .SN_DEV0
  else if v = 161 then .ok .SN_P1
  else if v = 162 then .ok .SN_DEV0_1
  else if v = 163 then .ok .SN_RESERVED
  else if v = 164 then .ok .SN_EVT1
  else if v = 165 then .ok .SN_EVT1_1
  else if v = 176 then .ok .HN_CONFIG_DEV0
  else if v = 177 then .ok .HN_CONFIG_DEV0_1
  else if v = 178 then .ok .HN_PREP1
  else .error (.valueError (toString v ++ " is not a valid BoardType"))

/-- Mutable fields of a `NeoADBSession` instance (including those
inherited from `ADBSession`).  `device_type` / `board_type` are `Option`
because the Python attributes are unset until the state-refresh pass
assigns them. -/
structure Sess where
  device_name : Option String := none
  device_serial : Option String := none
  root : Bool := false
  remounted : Bool := false
  echo_commands : Bool := false
  factory_mode : Bool := false
  device_type : Option DeviceType := none
  board_type : Option BoardType := none
  have_oem_device_info : Bool := false
  vendor_mcs_enabled : Bool := true
deriving DecidableEq, Repr

/-- The external device as a pure oracle: an argv is mapped to the
completed-process record `subprocess.run` would return for it. -/
def Transport := List String → CompletedProc

/-- Session computations: explicit state passing plus a trace of every
argv handed to the transport; a raised Python exception aborts. -/
def M (α : Type) : Type :=
  Sess → Transport → Except PyError (α × Sess × List (List String))

def mpure {α : Type} (a : α) : M α := fun s _ => .ok (a, s, [])

def mbind {α β : Type} (x : M α) (f : α → M β) : M β := fun s t =>
  match x s t with
  | .error e => .error e
  | .ok (a, s2, c1) =>
      match f a s2 t with
      | .error e => .error e
      | .ok (b, s3, c2) => .ok (b, s3, c1 ++ c2)

instance : Monad M where
  pure := mpure
  bind := mbind

theorem M_bind_def {α β : Type} (x : M α) (f : α → M β) :
    x >>= f = mbind x f := rfl

theorem M_pure_def {α : Type} (a : α) : (pure a : M α) = mpure a := rfl

/-- Read the session object's current attributes. -/
def getS : M Sess := fun s _ => .ok (s, s, [])

/-- Assign session attributes. -/
def modifyS (f : Sess → Sess) : M Unit := fun s _ => .ok ((), f s, [])

/-- Raise a Python exception. -/
def throwE {α : Type} (e : PyError) : M α := fun _ _ => .error e

/-- Lift a pure `CommandResult` assertion into the session. -/
def liftE {α : Type} (x : Except PyError α) : M α := fun s _ =>
  match x with
  | .ok a => .ok (a, s, [])
  | .error e => .error e

/-- Hand one argv to the transport, recording it in the trace; models
`subprocess.run` plus `factory.createCommandResult` (the Neo result
subclass adds no data). -/
def issue (argv : List String) : M CommandResult := fun s t =>
  .ok (⟨argv, t argv⟩, s, [argv])

/-- Resolved `ADB_PATH` global (binary discovery is out of scope; the
collaborator hands the session a resolved invocation). -/
def ADB_PATH : String := "adb"

/-- Module-level `run_adb_command`: `[ADB_PATH] + cmd`, no serial. -/
def run_adb_command (cmd : List String) : M CommandResult :=
  issue (ADB_PATH :: cmd)

namespace NeoADBSession

/-- `ADBSession.run_command` (inherited): `[ADB_PATH, \x27-s\x27,
serial] + cmd`.  The serial is always bound before any call here. -/
def run_command (cmd : List String) : M CommandResult := do
  let s ← getS
  issue (ADB_PATH :: "-s" :: (s.device_serial.getD "None") :: cmd)

/-- `ADBSession.run_shell_command` (inherited). -/
def run_shell_command (cmd : List String) : M CommandResult :=
  run_command ("shell" :: cmd)

/-- `ADBSession.assert_succeeded` (inherited): run a shell command and
assert success. -/
def sess_assert_succeeded (cmd : List String) : M Unit := do
  let r ← run_shell_command cmd
  liftE r.assert_succeeded

/-- `ADBSession.assert_string` (inherited). -/
def sess_assert_string (cmd : List String) : M String := do
  let r ← run_shell_command cmd
  liftE r.assert_string

/-- `ADBSession.assert_get_prop` (inherited). -/
def assert_get_prop (prop_name : String) : M String :=
  sess_assert_string ["getprop", prop_name]

/-- `ADBSession.assert_set_prop` (inherited). -/
def assert_set_prop (prop_name prop_value : String) : M Unit :=
  sess_assert_succeeded ["setprop", prop_name, prop_value]

/-- `ADBSession.assert_log_prop` (inherited): read the property (the
log line itself is not modelled). -/
def assert_log_prop (prop_name : String) : M Unit := do
  let _ ← assert_get_prop prop_name
  mpure ()

/-- `ADBSession.assert_log_shell_command` (inherited): run the command
and require single-line output (the log line itself is not modelled). -/
def assert_log_shell_command (cmd : List String) : M Unit := do
  let r ← run_shell_command cmd
  let _ ← liftE r.assert_string
  mpure ()

/-- `ADBSession.assert_file_int` (inherited). -/
def assert_file_int (filename_str : String) : M Int := do
  let r ← run_shell_command ["cat", filename_str]
  liftE r.assert_int

/-- `ADBSession.is_root` (inherited): `id -u` must succeed and parse as
an integer; root iff uid 0. -/
def is_root : M Bool := do
  let r ← run_shell_command ["id", "-u"]
  liftE r.assert_succeeded
  let uid ← liftE r.assert_int
  mpure (uid = 0)

/-- Pattern `"overlay on /system type overlay"` from
`ADBSession.is_remounted`. -/
def overlayPat : Re := Re.lit "overlay on /system type overlay"

/-- `ADBSession.is_remounted` (inherited). -/
def is_remounted : M Bool := do
  let r ← run_shell_command ["mount"]
  liftE r.assert_succeeded
  mpure (r.contains overlayPat)

/-- Pattern `"androidboot.factorytest=1"` from
`NeoADBSession.is_factory_mode`; `.` is the regex any-char. -/
def factorytestPat : Re :=
  Re.seq (Re.lit "androidboot") (Re.seq Re.dot (Re.lit "factorytest=1"))

/-- `NeoADBSession.is_factory_mode`: without root, immediately `False`
(no transport call); with root, `cat /proc/cmdline` and test for the
factory-test boot argument. -/
def is_factory_mode : M Bool := do
  let s ← getS
  if s.root = false then
    mpure false
  else do
    let r ← run_shell_command ["cat", "/proc/cmdline"]
    liftE r.assert_succeeded
    mpure (r.contains factorytestPat)

/-- `NeoADBSession.on_root`: refresh the factory-mode cache now that
root makes the check possible (`ADBSession.on_root` is a no-op). -/
def on_root : M Unit := do
  let fm ← is_factory_mode
  modifyS (fun s => { s with factory_mode := fm })

/-- `ADBSession.assert_root` (inherited; `self.on_root()` dispatches to
the Neo override): if the cached flag is set, return; else run the
escalation command, assert success, set the flag, call the hook. -/
def assert_root : M Unit := do
  let s ← getS
  if s.root then
    mpure ()
  else do
    let r ← run_command ["root"]
    liftE r.assert_succeeded
    modifyS (fun s2 => { s2 with root := true })
    on_root

/-- `ADBSession.unroot` (inherited). -/
def unroot : M Unit := do
  let r ← run_command ["unroot"]
  liftE r.assert_succeeded
  modifyS (fun s => { s with root := false })

/-- `ADBSession.assert_remount` (inherited). -/
def assert_remount : M Unit := do
  let s ← getS
  if s.remounted then
    mpure ()
  else do
    let r ← run_command ["remount"]
    liftE r.assert_succeeded
    modifyS (fun s2 => { s2 with remounted := true })

/-- `ADBSession.is_selinux_enforcing` (inherited). -/
def is_selinux_enforcing : M Bool := do
  let mode ← sess_assert_string ["getenforce"]
  mpure (mode = "Enforcing")

/-- `ADBSession.assert_set_selinux_enforcing` (inherited): no-op if the
device already reports the requested mode, else root plus `setenforce`. -/
def assert_set_selinux_enforcing (enforcing : Bool) : M Unit := do
  let cur ← is_selinux_enforcing
  if cur = enforcing then
    mpure ()
  else do
    assert_root
    sess_assert_succeeded ["setenforce", if enforcing then "1" else "0"]

/-- `ADBSession.assert_ctl_stop` (inherited). -/
def assert_ctl_stop (service : String) : M Unit :=
  assert_set_prop "ctl.stop" service

/-- `ADBSession.assert_ctl_start` (inherited). -/
def assert_ctl_start (service : String) : M Unit :=
  assert_set_prop "ctl.start" service

/-- `NeoADBSession.assert_disable_vendor_MCS`: guarded by the cached
flag — already disabled is an immediate return. -/
def assert_disable_vendor_MCS : M Unit := do
  let s ← getS
  if s.vendor_mcs_enabled = false then
    mpure ()
  else do
    assert_root
    assert_set_selinux_enforcing true
    assert_ctl_stop "captureengineservice"
    assert_ctl_stop "vendor.camera-provider-2-7"
    modifyS (fun s2 => { s2 with vendor_mcs_enabled := false })

/-- `NeoADBSession.assert_enable_vendor_MCS`: NOTE the source has no
cached-state guard — the body always runs. -/
def assert_enable_vendor_MCS : M Unit := do
  assert_root
  assert_set_selinux_enforcing true
  assert_ctl_start "captureengineservice"
  assert_ctl_start "vendor.camera-provider-2-7"
  modifyS (fun s2 => { s2 with vendor_mcs_enabled := true })

end NeoADBSession

/-- Python `try: body except KeyError: handler` — only `KeyError` is
caught; every other exception propagates. -/
def catchKeyError {α : Type} (body : M α) (handler : String → M α) : M α := fun s t =>
  match body s t with
  | .error (.keyError m) => handler m s t
  | other => other

namespace NeoADBSession

/-- `ADBSession.refresh_device_state`: re-derive the root and remount
flags and the device name from the device. -/
def adb_refresh_device_state : M Unit := do
  let r ← is_root
  modifyS (fun s => { s with root := r })
  let m ← is_remounted
  modifyS (fun s => { s with remounted := m })
  let n ← assert_get_prop "ro.product.device"
  modifyS (fun s => { s with device_name := some n })

/-- Wireless-firmware image path logged during the refresh pass. -/
def golden_bin : String := "/vendor/firmware_mnt/image/kiwi/bdwlan.elf"

/-- Sysfs path of the numeric board revision. -/
def bt_file : String := "/sys/devices/soc0/platform_subtype_id"

/-- `NeoADBSession.refresh_device_state`: the superclass pass, then the
factory-mode cache, identification logging, firmware logging (root
only), and the device-identity resolution.  The `except KeyError`
handler around the identity block is translated as in the source; note
that Python `Enum(value)` lookup raises `ValueError` on an unmapped
value, which that handler does not catch.  The local `board_id` stays 0
(the source never reassigns it), so the handler's message always says
`platform_subtype_id=0`. -/
def refresh_device_state : M Unit := do
  adb_refresh_device_state
  let fm ← is_factory_mode
  modifyS (fun s => { s with factory_mode := fm })
  assert_log_prop "ro.product.device"
  assert_log_prop "ro.build.flavor"
  assert_log_prop "ro.build.fingerprint"
  assert_log_shell_command ["uname", "-a"]
  let s0 ← getS
  if s0.root then do
    assert_log_shell_command ["sha1sum", golden_bin]
    assert_log_shell_command ["stat", "-c", "%s", golden_bin]
  else
    mpure ()
  catchKeyError
    (do
      let s1 ← getS
      let dt ← liftE (DeviceType.fromValue (s1.device_name.getD "None"))
      modifyS (fun s2 => { s2 with device_type := some dt })
      let s2 ← getS
      if s2.root then do
        let bid ← assert_file_int bt_file
        let bt ← liftE (BoardType.fromValue bid)
        modifyS (fun s3 => { s3 with board_type := some bt })
      else do
        let bt := if dt = DeviceType.HAMMERHEAD then BoardType.SN_UNKNOWN else BoardType.HN_UNKNOWN
        modifyS (fun s3 => { s3 with board_type := some bt }))
    (fun _ => do
      let s1 ← getS
      throwE (.adbAssertion
        ("FAILED: \x27" ++ (s1.device_name.getD "None")
          ++ "\x27 or platform_subtype_id=0 doesn\x27t map to a known configuration: update test infra")))

/-- `ADBSession.bind_serial`: record the serial, then refresh (the
refresh dispatches to the Neo override). -/
def bind_serial (serial : String) : M Unit := do
  modifyS (fun s => { s with device_serial := some serial })
  refresh_device_state

/-- Pattern `\x27^List of devices attached\n\x27` from
`ADBSession.bind_with_first_device`. -/
def devicesHeaderPat : Re :=
  Re.seq Re.bol (Re.lit "List of devices attached\n")

/-- Pattern `\x27^(\w+)\s+device\x27` from
`ADBSession.bind_with_first_device`. -/
def firstDevicePat : Re :=
  Re.seq Re.bol (Re.seq (Re.group 1 (Re.plus Re.wordc))
    (Re.seq (Re.plus Re.spacec) (Re.lit "device")))

/-- `ADBSession.bind_with_first_device`: list devices over the debug
transport, pick the first serial matching the attached-and-ready
pattern, raise `ADBAssertionError` when there is none. -/
def bind_with_first_device : M Unit := do
  let r ← run_adb_command ["devices"]
  liftE r.assert_succeeded
  liftE (r.assert_contains devicesHeaderPat)
  let ser ← liftE (r.search firstDevicePat)
  match ser with
  | none =>
      throwE (.adbAssertion
        "\x27adb devices\x27 shows no connected devices available to run tests")
  | some d => bind_serial d

end NeoADBSession

/-- Successful completed process with the given stdout. -/
def outOk (s : String) : CompletedProc := ⟨0, s, ""⟩

/-- A session bound to serial `S1`, not yet rooted. -/
def sessS1 : Sess := { device_serial := some "S1" }

/-- A session bound to serial `S1`, already rooted. -/
def sessS1root : Sess := { device_serial := some "S1", root := true }

/-- Expected session after a successful escalation on `transRoot`:
rooted, with the factory-mode cache re-derived true by the hook. -/
def sessS1rootFm : Sess := { device_serial := some "S1", root := true, factory_mode := true }

/-- Transport for the escalation scenario: `adb root` succeeds and the
kernel command line carries the factory-test argument. -/
def transRoot : Transport := fun argv =>
  if argv = ["adb", "-s", "S1", "root"] then outOk ""
  else if argv = ["adb", "-s", "S1", "shell", "cat", "/proc/cmdline"] then
    outOk "androidboot.factorytest=1 rw\n"
  else ⟨1, "", ""⟩

/-- Transport for the vendor-service scenario: SELinux already
enforcing, service-control property writes succeed. -/
def transMcs : Transport := fun argv =>
  if argv = ["adb", "-s", "S1", "shell", "getenforce"] then outOk "Enforcing\n"
  else if argv = ["adb", "-s", "S1", "shell", "setprop", "ctl.start", "captureengineservice"] then outOk ""
  else if argv = ["adb", "-s", "S1", "shell", "setprop", "ctl.start", "vendor.camera-provider-2-7"] then outOk ""
  else ⟨1, "", ""⟩

/-- Trace of the redundant `assert_enable_vendor_MCS` call. -/
def mcsTrace : List (List String) :=
  [["adb", "-s", "S1", "shell", "getenforce"],
   ["adb", "-s", "S1", "shell", "setprop", "ctl.start", "captureengineservice"],
   ["adb", "-s", "S1", "shell", "setprop", "ctl.start", "vendor.camera-provider-2-7"]]

/-- Transport for the unmapped-board-revision scenario: a rooted
hammerhead whose `platform_subtype_id` reads `999`. -/
def trans999 : Transport := fun argv =>
  if argv = ["adb", "-s", "S1", "shell", "id", "-u"] then outOk "0\n"
  else if argv = ["adb", "-s", "S1", "shell", "mount"] then outOk "proc on /proc type proc\n"
  else if argv = ["adb", "-s", "S1", "shell", "getprop", "ro.product.device"] then outOk "hammerhead\n"
  else if argv = ["adb", "-s", "S1", "shell", "cat", "/proc/cmdline"] then outOk "console=ttyS0\n"
  else if argv = ["adb", "-s", "S1", "shell", "getprop", "ro.build.flavor"] then outOk "neo-userdebug\n"
  else if argv = ["adb", "-s", "S1", "shell", "getprop", "ro.build.fingerprint"] then outOk "meta/neo:13\n"
  else if argv = ["adb", "-s", "S1", "shell", "uname", "-a"] then outOk "Linux\n"
  else if argv = ["adb", "-s", "S1", "shell", "sha1sum", NeoADBSession.golden_bin] then outOk "ab12cd\n"
  else if argv = ["adb", "-s", "S1", "shell", "stat", "-c", "%s", NeoADBSession.golden_bin] then outOk "4096\n"
  else if argv = ["adb", "-s", "S1", "shell", "cat", NeoADBSession.bt_file] then outOk "999\n"
  else ⟨1, "", ""⟩

/-- Transport for binding without an explicit serial: two ready devices
attached; the bound device then reports as an unrooted hammerhead. -/
def transBind : Transport := fun argv =>
  if argv = ["adb", "devices"] then
    outOk "List of devices attached\nSERIALONE\tdevice\nSERIALTWO\tdevice\n\n"
  else if argv = ["adb", "-s", "SERIALONE", "shell", "id", "-u"] then outOk "2000\n"
  else if argv = ["adb", "-s", "SERIALONE", "shell", "mount"] then outOk "proc on /proc type proc\n"
  else if argv = ["adb", "-s", "SERIALONE", "shell", "getprop", "ro.product.device"] then outOk "hammerhead\n"
  else if argv = ["adb", "-s", "SERIALONE", "shell", "getprop", "ro.build.flavor"] then outOk "neo-userdebug\n"
  else if argv = ["adb", "-s", "SERIALONE", "shell", "getprop", "ro.build.fingerprint"] then outOk "meta/neo:13\n"
  else if argv = ["adb", "-s", "SERIALONE", "shell", "uname", "-a"] then outOk "Linux\n"
  else ⟨1, "", ""⟩

/-- Transport where `adb devices` reports no attached device. -/
def transBindNone : Transport := fun argv =>
  if argv = ["adb", "devices"] then outOk "List of devices attached\n\n"
  else ⟨1, "", ""⟩

/-- Expected session after binding to the first listed device. -/
def sessBound : Sess :=
  { device_name := some "hammerhead", device_serial := some "SERIALONE",
    device_type := some .HAMMERHEAD, board_type := some .SN_UNKNOWN }

/-- Expected trace of the successful no-serial bind. -/
def bindTrace : List (List String) :=
  [["adb", "devices"],
   ["adb", "-s", "SERIALONE", "shell", "id", "-u"],
   ["adb", "-s", "SERIALONE", "shell", "mount"],
   ["adb", "-s", "SERIALONE", "shell", "getprop", "ro.product.device"],
   ["adb", "-s", "SERIALONE", "shell", "getprop", "ro.product.device"],
   ["adb", "-s", "SERIALONE", "shell", "getprop", "ro.build.flavor"],
   ["adb", "-s", "SERIALONE", "shell", "getprop", "ro.build.fingerprint"],
   ["adb", "-s", "SERIALONE", "shell", "uname", "-a"]]

/-- Shell argv of the `/proc/cmdline` read of the factory-mode check. -/
def cmdlineArgv (s : Sess) : List String :=
  [ADB_PATH, "-s", s.device_serial.getD "None", "shell", "cat", "/proc/cmdline"]

/-- Argv of the privilege-escalation command. -/
def rootArgv (s : Sess) : List String :=
  [ADB_PATH, "-s", s.device_serial.getD "None", "root"]

/-- The command result the privilege-escalation command produces under
transport `t`. -/
def rootResult (s : Sess) (t : Transport) : CommandResult :=
  ⟨rootArgv s, t (rootArgv s)⟩

/-- The command result the `/proc/cmdline` read produces under `t`. -/
def cmdlineResult (s : Sess) (t : Transport) : CommandResult :=
  ⟨cmdlineArgv s, t (cmdlineArgv s)⟩

/-- Manufacturing result whose stdout reports `Success`. -/
def mfgOkResult : CommandResult := ⟨["mfg", "led", "probe"], outOk "\x7b\"status\":\"Success\"\x7d"⟩

/-- Manufacturing result whose stdout reports `Fail`. -/
def mfgFailResult : CommandResult := ⟨["mfg", "led", "probe"], outOk "\x7b\"status\":\"Fail\"\x7d"⟩

/-- Manufacturing result whose stdout is not JSON. -/
def mfgBadResult : CommandResult := ⟨["mfg", "led", "probe"], outOk "bogus"⟩

/-- A failed command (exit code 1) whose stdout is the empty JSON object. -/
def failedJsonResult : CommandResult := ⟨["mfg", "led", "probe"], ⟨1, "\x7b\x7d", ""⟩⟩

/-- A command result with stdout that matches no device entry. -/
def noMatchResult : CommandResult := ⟨["adb", "devices"], outOk "xyz"⟩


/-! ### Helper lemmas about the session state machine -/

theorem except_bind_ok {α β : Type} (a : α) (f : α → Except PyError β) :
    (Except.ok a >>= f) = f a := rfl

theorem except_bind_error {α β : Type} (e : PyError) (f : α → Except PyError β) :
    ((Except.error e : Except PyError α) >>= f) = .error e := rfl

/-- `assert_root` with the cached flag set is an immediate return: the
initial state is untouched and the trace is empty. -/
theorem assert_root_noop (s : Sess) (t : Transport) (h : s.root = true) :
    NeoADBSession.assert_root s t = .ok ((), s, []) := by
  simp [NeoADBSession.assert_root, M_bind_def, mbind, getS, mpure, h]

/-- `assert_remount` with the cached flag set is an immediate return. -/
theorem assert_remount_noop (s : Sess) (t : Transport) (h : s.remounted = true) :
    NeoADBSession.assert_remount s t = .ok ((), s, []) := by
  simp [NeoADBSession.assert_remount, M_bind_def, mbind, getS, mpure, h]

/-- `assert_disable_vendor_MCS` with the cached flag already false is an
immediate return. -/
theorem assert_disable_vendor_MCS_noop (s : Sess) (t : Transport)
    (h : s.vendor_mcs_enabled = false) :
    NeoADBSession.assert_disable_vendor_MCS s t = .ok ((), s, []) := by
  simp [NeoADBSession.assert_disable_vendor_MCS, M_bind_def, mbind, getS, mpure, h]

/-- Characterization of the factory-mode query: without root it is an
immediate `false` with no transport call; with root it runs exactly the
`/proc/cmdline` read. -/
theorem is_factory_mode_eq (s : Sess) (t : Transport) :
    NeoADBSession.is_factory_mode s t =
      if s.root = false then .ok (false, s, [])
      else
        match (cmdlineResult s t).assert_succeeded with
        | .error e => .error e
        | .ok _ =>
            .ok ((cmdlineResult s t).contains NeoADBSession.factorytestPat, s,
              [cmdlineArgv s]) := by
  by_cases hr : s.root = false
  · simp [NeoADBSession.is_factory_mode, M_bind_def, mbind, getS, mpure, hr]
  · have hr1 : s.root = true := by
      cases hb : s.root
      · exact absurd hb hr
      · rfl
    simp only [NeoADBSession.is_factory_mode, NeoADBSession.run_shell_command,
      NeoADBSession.run_command, M_bind_def, mbind, getS, mpure, issue, liftE, hr1,
      cmdlineResult, cmdlineArgv, Bool.true_eq_false, if_false, if_neg, ite_false]
    cases hA : (CommandResult.mk [ADB_PATH, "-s", s.device_serial.getD "None",
        "shell", "cat", "/proc/cmdline"] (t [ADB_PATH, "-s", s.device_serial.getD "None",
        "shell", "cat", "/proc/cmdline"])).assert_succeeded with
    | error e => simp [hA]
    | ok a => simp [hA]

/-- Characterization of the privilege-gained hook: it only rewrites the
factory-mode cache, from the `/proc/cmdline` read when rooted and to
`false` with no transport call otherwise. -/
theorem on_root_eq (s : Sess) (t : Transport) :
    NeoADBSession.on_root s t =
      if s.root = false then .ok ((), { s with factory_mode := false }, [])
      else
        match (cmdlineResult s t).assert_succeeded with
        | .error e => .error e
        | .ok _ =>
            .ok ((), { s with factory_mode :=
                (cmdlineResult s t).contains NeoADBSession.factorytestPat },
              [cmdlineArgv s]) := by
  simp only [NeoADBSession.on_root, M_bind_def, mbind, modifyS]
  rw [is_factory_mode_eq]
  by_cases hr : s.root = false
  · simp [hr]
  · have hr1 : s.root = true := by
      cases hb : s.root
      · exact absurd hb hr
      · rfl
    simp only [hr1, Bool.true_eq_false, if_false, ite_false]
    cases hA : (cmdlineResult s t).assert_succeeded with
    | error e => simp [hA, hr1]
    | ok a => simp [hA, hr1]

/-- Characterization of `assert_root`: cached-root is an immediate
return; otherwise the escalation command runs, the flag is set and the
hook fires. -/
theorem assert_root_eq (s : Sess) (t : Transport) :
    NeoADBSession.assert_root s t =
      if s.root = true then .ok ((), s, [])
      else
        match (rootResult s t).assert_succeeded with
        | .error e => .error e
        | .ok _ =>
            match NeoADBSession.on_root { s with root := true } t with
            | .error e => .error e
            | .ok (_, s2, c2) => .ok ((), s2, rootArgv s :: c2) := by
  by_cases hr : s.root = true
  · simp [NeoADBSession.assert_root, M_bind_def, mbind, getS, mpure, hr]
  · have hr0 : s.root = false := by
      cases hb : s.root
      · rfl
      · exact absurd hb hr
    simp only [NeoADBSession.assert_root, NeoADBSession.run_command, M_bind_def, mbind,
      getS, mpure, modifyS, issue, liftE, hr0, rootResult, rootArgv,
      Bool.false_eq_true, if_false, ite_false]
    cases hA : (CommandResult.mk [ADB_PATH, "-s", s.device_serial.getD "None", "root"]
        (t [ADB_PATH, "-s", s.device_serial.getD "None", "root"])).assert_succeeded with
    | error e => simp [hA]
    | ok a =>
        simp only [hA]
        cases hB : NeoADBSession.on_root { s with root := true } t with
        | error e => simp
        | ok res =>
            obtain ⟨a2, s2, c2⟩ := res
            simp

/-! ### Claim theorems: session operations -/

/-- C4: `assertPrivileged()` (`assert_root`) is idempotent — after any
successful call the cached rooted flag is true, and a subsequent call
returns immediately with an empty transport trace, so the escalation
command is issued at most once across the two calls. -/
theorem assert_root_idempotent (s : Sess) (t : Transport) (s2 : Sess)
    (tr : List (List String))
    (h : NeoADBSession.assert_root s t = .ok ((), s2, tr)) :
    s2.root = true ∧ NeoADBSession.assert_root s2 t = .ok ((), s2, []) := by
  rw [assert_root_eq] at h
  by_cases hr : s.root = true
  · rw [if_pos hr] at h
    simp only [Except.ok.injEq, Prod.mk.injEq] at h
    obtain ⟨-, hs, -⟩ := h
    subst hs
    exact ⟨hr, assert_root_noop _ _ hr⟩
  · rw [if_neg hr] at h
    split at h
    · cases h
    · split at h
      · cases h
      · rename_i heq2
        simp only [Except.ok.injEq, Prod.mk.injEq] at h
        obtain ⟨-, hs, -⟩ := h
        rw [on_root_eq] at heq2
        rw [if_neg (by simp)] at heq2
        split at heq2
        · cases heq2
        · simp only [Except.ok.injEq, Prod.mk.injEq] at heq2
          obtain ⟨-, hs3, -⟩ := heq2
          have hroot : s2.root = true := by
            rw [← hs, ← hs3]
          exact ⟨hroot, assert_root_noop _ _ hroot⟩

/-- Witness for C4 at a concrete unrooted session and a transport whose
escalation command succeeds. -/
theorem assert_root_idempotent_witness :
    sessS1rootFm.root = true ∧
      NeoADBSession.assert_root sessS1rootFm transRoot = .ok ((), sessS1rootFm, []) :=
  assert_root_idempotent sessS1 transRoot sessS1rootFm
    [["adb", "-s", "S1", "root"], ["adb", "-s", "S1", "shell", "cat", "/proc/cmdline"]]
    (by rfl)

/-- C3 (amended): the cached-state guards that exist — `assert_root`,
`assert_remount`, `assert_disable_vendor_MCS` — make those operations
no-ops (no transport command) when the cached state already matches, but
`assert_enable_vendor_MCS` has no guard: called with
`vendor_mcs_enabled` already cached true it still issues the SELinux
query and the two `ctl.start` property writes. -/
theorem vendor_MCS_cache_guard_asymmetry :
    (∀ (s : Sess) (t : Transport), s.vendor_mcs_enabled = false →
        NeoADBSession.assert_disable_vendor_MCS s t = .ok ((), s, [])) ∧
    (∀ (s : Sess) (t : Transport), s.root = true →
        NeoADBSession.assert_root s t = .ok ((), s, [])) ∧
    (∀ (s : Sess) (t : Transport), s.remounted = true →
        NeoADBSession.assert_remount s t = .ok ((), s, [])) ∧
    (NeoADBSession.assert_enable_vendor_MCS sessS1root transMcs
        = .ok ((), sessS1root, mcsTrace) ∧ mcsTrace ≠ []) :=
  ⟨assert_disable_vendor_MCS_noop, assert_root_noop, assert_remount_noop,
    by rfl, by decide⟩

/-- Witness for C3's amended theorem at concrete sessions. -/
theorem vendor_MCS_cache_guard_asymmetry_witness :
    NeoADBSession.assert_disable_vendor_MCS
        { sessS1root with vendor_mcs_enabled := false } transMcs
      = .ok ((), { sessS1root with vendor_mcs_enabled := false }, []) ∧
    NeoADBSession.assert_root sessS1root transMcs = .ok ((), sessS1root, []) ∧
    NeoADBSession.assert_remount { sessS1root with remounted := true } transMcs
      = .ok ((), { sessS1root with remounted := true }, []) :=
  ⟨vendor_MCS_cache_guard_asymmetry.1 _ _ rfl,
    vendor_MCS_cache_guard_asymmetry.2.1 _ _ rfl,
    vendor_MCS_cache_guard_asymmetry.2.2.1 _ _ rfl⟩

/-- C3 counterexample: a session whose `vendor_mcs_enabled` flag is
already cached true still issues three transport commands on
`assert_enable_vendor_MCS`, refuting the claim that every operation
whose target state equals the cached state is transport-free. -/
theorem assert_enable_vendor_MCS_not_idempotent :
    sessS1root.vendor_mcs_enabled = true ∧
    NeoADBSession.assert_enable_vendor_MCS sessS1root transMcs
      = .ok ((), sessS1root, mcsTrace) ∧
    mcsTrace ≠ ([] : List (List String)) :=
  ⟨rfl, by rfl, by decide⟩

/-- C10: whenever the cached rooted flag is false, the factory-mode
query returns `false` with no transport command (and the hook caches
`false`); once rooted, the hook re-derives the flag from the
`/proc/cmdline` read. -/
theorem factory_mode_query_requires_root (s : Sess) (t : Transport) :
    (s.root = false → NeoADBSession.is_factory_mode s t = .ok (false, s, [])) ∧
    (s.root = false →
        NeoADBSession.on_root s t = .ok ((), { s with factory_mode := false }, [])) ∧
    (s.root = true → (t (cmdlineArgv s)).returncode = 0 →
        NeoADBSession.on_root s t
          = .ok ((), { s with factory_mode :=
              (cmdlineResult s t).contains NeoADBSession.factorytestPat },
            [cmdlineArgv s])) := by
  refine ⟨?_, ?_, ?_⟩
  · intro h
    rw [is_factory_mode_eq, if_pos h]
  · intro h
    rw [on_root_eq, if_pos h]
  · intro h h0
    rw [on_root_eq, if_neg (by simp [h])]
    have hA : (cmdlineResult s t).assert_succeeded = .ok () := by
      simp [CommandResult.assert_succeeded, CommandResult.succeeded, cmdlineResult, h0]
    rw [hA]

/-- Witness for C10: an unrooted session reports no factory mode with an
empty trace; a rooted one re-derives it from the device. -/
theorem factory_mode_query_requires_root_witness :
    NeoADBSession.is_factory_mode sessS1 transRoot = .ok (false, sessS1, []) ∧
    NeoADBSession.on_root sessS1root transRoot
      = .ok ((), sessS1rootFm, [cmdlineArgv sessS1root]) := by
  constructor
  · exact (factory_mode_query_requires_root sessS1 transRoot).1 rfl
  · exact (factory_mode_query_requires_root sessS1root transRoot).2.2 rfl (by rfl)

/-! ### Claim theorems: device identity and binding -/

/-- C1: on a rooted hammerhead whose `platform_subtype_id` reads `999`
(a value outside the closed board-revision table), the state-refresh
pass raises an uncaught Python `ValueError` from the enum value lookup:
the `except KeyError` handler written to produce the
"doesn\x27t map to a known configuration: update test infra" error never
fires, because `Enum(value)` raises `ValueError`, not `KeyError` — as
the second conjunct shows for any such lookup. -/
theorem refresh_unmapped_board_revision_raises_valueerror :
    (NeoADBSession.refresh_device_state sessS1 trans999
      = .error (.valueError "999 is not a valid BoardType")) ∧
    (∀ (m : String) (handler : String → M Unit) (s : Sess) (t : Transport),
      catchKeyError (throwE (.valueError m)) handler s t = .error (.valueError m)) :=
  ⟨by rfl, fun _ _ _ _ => rfl⟩

/-- C6 (amended): binding with no explicit serial lists devices over the
debug transport and binds the first attached-and-ready entry
(`SERIALONE`, not `SERIALTWO`); with no device attached it raises
`ADBAssertionError` — the same assertion-failure kind as the
command-result asserts, there being no separate configuration-error
kind. -/
theorem bind_with_first_device_first_entry_and_error_kind :
    (NeoADBSession.bind_with_first_device {} transBind = .ok ((), sessBound, bindTrace)) ∧
    (sessBound.device_serial = some "SERIALONE") ∧
    (NeoADBSession.bind_with_first_device {} transBindNone
      = .error (.adbAssertion
          "\x27adb devices\x27 shows no connected devices available to run tests")) :=
  ⟨by rfl, rfl, by rfl⟩

/-- C6 counterexample: with no device attached, the failure raised by
`bind_with_first_device` is an `ADBAssertionError` — the assertion
failure kind — not a distinct configuration-error kind. -/
theorem bind_with_first_device_no_devices_assertion_kind :
    NeoADBSession.bind_with_first_device {} transBindNone
      = .error (.adbAssertion
          "\x27adb devices\x27 shows no connected devices available to run tests") := by
  rfl

/-! ### Claim theorems: command-result assertions -/

/-- C7: `assert_string` succeeds exactly on a successful command whose
stdout is a single non-empty line, returning the stripped value; in
particular `"abc\n"` yields `"abc"` while `""` and `"a\nb\n"` fail. -/
theorem assert_string_single_nonempty_line :
    (∀ (r : CommandResult) (v : String),
        r.assert_string = .ok v →
        r.completed_proc.returncode = 0 ∧ v = pyStrip r.completed_proc.stdout ∧
          (pyStrip r.completed_proc.stdout).length ≠ 0 ∧
          (pySplitlines r.completed_proc.stdout).length ≤ 1) ∧
    (∀ (r : CommandResult),
        r.completed_proc.returncode = 0 →
        (pyStrip r.completed_proc.stdout).length ≠ 0 →
        (pySplitlines r.completed_proc.stdout).length ≤ 1 →
        r.assert_string = .ok (pyStrip r.completed_proc.stdout)) ∧
    ((CommandResult.mk ["getprop", "x"] ⟨0, "abc\n", ""⟩).assert_string = .ok "abc") ∧
    ((CommandResult.mk ["getprop", "x"] ⟨0, "", ""⟩).assert_string
      = .error (.adbAssertion
          ((CommandResult.mk ["getprop", "x"] ⟨0, "", ""⟩).single_string_msg))) ∧
    ((CommandResult.mk ["getprop", "x"] ⟨0, "a\nb\n", ""⟩).assert_string
      = .error (.adbAssertion
          ((CommandResult.mk ["getprop", "x"] ⟨0, "a\nb\n", ""⟩).single_string_msg))) := by
  refine ⟨?_, ?_, by rfl, by rfl, by rfl⟩
  · intro r v h
    unfold CommandResult.assert_string at h
    cases hA : r.assert_succeeded with
    | error e => rw [hA] at h; cases h
    | ok a =>
        rw [hA] at h
        have hrc : r.completed_proc.returncode = 0 := by
          by_contra hne
          simp [CommandResult.assert_succeeded, CommandResult.succeeded, hne] at hA
        cases hb : (decide ((pyStrip r.completed_proc.stdout).length = 0)
            || decide ((pySplitlines r.completed_proc.stdout).length > 1)) with
        | true => simp [hb] at h
        | false =>
            simp only [hb, Bool.false_eq_true, if_false, ite_false] at h
            simp only [Bool.or_eq_false_iff, decide_eq_false_iff_not] at hb
            obtain ⟨hb1, hb2⟩ := hb
            injection h with hv
            exact ⟨hrc, hv.symm, hb1, by omega⟩
  · intro r h0 h1 h2
    unfold CommandResult.assert_string
    have hA : r.assert_succeeded = .ok () := by
      simp [CommandResult.assert_succeeded, CommandResult.succeeded, h0]
    rw [hA]
    rw [if_neg (by simp only [Bool.or_eq_true, decide_eq_true_eq, not_or]; omega)]

/-- Witness for C7 at a concrete single-line result. -/
theorem assert_string_single_nonempty_line_witness :
    (CommandResult.mk ["whoami"] ⟨0, " val \n", ""⟩).assert_string
      = .ok (pyStrip " val \n") :=
  assert_string_single_nonempty_line.2.1 (CommandResult.mk ["whoami"] ⟨0, " val \n", ""⟩)
    rfl (by decide) (by decide)

/-- C8: `assert_int` parses the `assert_string` result as a base-10
integer — stdout `"0\n"` yields `0` — and a non-integer single line
(`"root\n"`) fails with the integer-parse message, which differs from
the single-string message raised for multi-line output. -/
theorem assert_int_parse_error_distinct :
    ((CommandResult.mk ["cat", "uid"] ⟨0, "0\n", ""⟩).assert_int = .ok 0) ∧
    ((CommandResult.mk ["id", "-u"] ⟨0, "root\n", ""⟩).assert_int
      = .error (.adbAssertion
          ((CommandResult.mk ["id", "-u"] ⟨0, "root\n", ""⟩).integer_msg))) ∧
    ((CommandResult.mk ["id", "-u"] ⟨0, "a\nb\n", ""⟩).assert_int
      = .error (.adbAssertion
          ((CommandResult.mk ["id", "-u"] ⟨0, "a\nb\n", ""⟩).single_string_msg))) ∧
    ((CommandResult.mk ["id", "-u"] ⟨0, "root\n", ""⟩).integer_msg
      ≠ (CommandResult.mk ["id", "-u"] ⟨0, "root\n", ""⟩).single_string_msg) :=
  ⟨by rfl, by rfl, by rfl, by decide⟩

/-- C2 (amended): `assert_json` does not look at the exit code — it
succeeds exactly when stdout parses as JSON, and on a parse failure it
raises the malformed-JSON `ADBAssertionError` whose message ends with
the decoder's own message. -/
theorem assert_json_ignores_exit_code (r : CommandResult) :
    (∀ j, r.assert_json = .ok j ↔ json_loads r.completed_proc.stdout = .ok j) ∧
    (∀ m, json_loads r.completed_proc.stdout = .error m →
        r.assert_json = .error (.adbAssertion (r.json_decode_msg m)) ∧
        List.IsSuffix m.toList (r.json_decode_msg m).toList) := by
  constructor
  · intro j
    cases h : json_loads r.completed_proc.stdout with
    | ok a => simp [CommandResult.assert_json, h]
    | error m => simp [CommandResult.assert_json, h]
  · intro m h
    refine ⟨by simp [CommandResult.assert_json, h], ?_⟩
    show ∃ w, w ++ m.toList = (r.json_decode_msg m).toList
    exact ⟨_, (String.data_append _ m).symm⟩

/-- Witness for C2's amended theorem at a non-JSON stdout. -/
theorem assert_json_ignores_exit_code_witness :
    (CommandResult.mk ["mfg"] (outOk "bogus")).assert_json
        = .error (.adbAssertion
            ((CommandResult.mk ["mfg"] (outOk "bogus")).json_decode_msg "Expecting value")) ∧
      List.IsSuffix ("Expecting value".toList)
        (((CommandResult.mk ["mfg"] (outOk "bogus")).json_decode_msg "Expecting value").toList) :=
  (assert_json_ignores_exit_code (CommandResult.mk ["mfg"] (outOk "bogus"))).2
    "Expecting value" (by rfl)

/-- C2 counterexample: a command with exit code 1 and JSON stdout passes
`assert_json`, so `assert_json` does not require the command to have
succeeded. -/
theorem assert_json_succeeds_on_failed_command :
    failedJsonResult.succeeded = false ∧ failedJsonResult.assert_json = .ok (.obj []) :=
  ⟨rfl, by rfl⟩

/-- C5: the manufacturing-result assert succeeds on
`\x7b"status":"Success"\x7d`, fails naming the literal JSON on
`\x7b"status":"Fail"\x7d`, and fails with the (different) JSON-decode
message on non-JSON stdout. -/
theorem assert_mfg_succeeded_cases :
    (mfgOkResult.assert_mfg_succeeded = .ok ()) ∧
    (mfgFailResult.assert_mfg_succeeded
      = .error (.adbAssertion (mfgFailResult.mfg_fail_msg))) ∧
    (List.IsInfix (mfgFailResult.completed_proc.stdout.toList)
      ((mfgFailResult.mfg_fail_msg).toList)) ∧
    (mfgBadResult.assert_mfg_succeeded
      = .error (.adbAssertion (mfgBadResult.json_decode_msg "Expecting value"))) ∧
    (mfgFailResult.mfg_fail_msg ≠ mfgBadResult.json_decode_msg "Expecting value") :=
  ⟨by rfl, by rfl, by decide, by rfl, by decide⟩

/-- C9: with a pattern that has a capturing group, `search` (and
`stderr_search`) never raises — it returns the reported match's first
group, or `None` when nothing matches — while `assert_search` on a
non-matching input raises the no-match `ADBAssertionError`. -/
theorem search_total_and_assert_search_fails (r : CommandResult) (p : Re)
    (hg : 1 ≤ p.maxGroup) :
    (r.search p = .ok ((reSearch p r.completed_proc.stdout).map
        (fun m => pyStrOfGroup (m.groups.lookup 1)))) ∧
    (r.stderr_search p = .ok ((reSearch p r.completed_proc.stderr).map
        (fun m => pyStrOfGroup (m.groups.lookup 1)))) ∧
    (reSearch p r.completed_proc.stdout = none →
        r.search p = .ok none ∧
        r.assert_search p = .error (.adbAssertion (r.no_match_msg))) := by
  have hng : ¬ (p.maxGroup < 1) := by omega
  refine ⟨?_, ?_, ?_⟩
  · cases h : reSearch p r.completed_proc.stdout with
    | none => simp [CommandResult.search, h]
    | some m => simp [CommandResult.search, h, hng]
  · cases h : reSearch p r.completed_proc.stderr with
    | none => simp [CommandResult.stderr_search, h]
    | some m => simp [CommandResult.stderr_search, h, hng]
  · intro h
    have hs : r.search p = .ok none := by simp [CommandResult.search, h]
    exact ⟨hs, by simp [CommandResult.assert_search, hs]⟩

/-- Witness for C9 at a non-matching stdout and the device pattern. -/
theorem search_total_and_assert_search_fails_witness :
    noMatchResult.search NeoADBSession.firstDevicePat = .ok none ∧
    noMatchResult.assert_search NeoADBSession.firstDevicePat
      = .error (.adbAssertion (noMatchResult.no_match_msg)) :=
  (search_total_and_assert_search_fails noMatchResult NeoADBSession.firstDevicePat
    (by decide)).2.2 (by rfl)
